import Mathlib

/-!
Shallow embedding of the plover_websocket_server repository.

The repository contains two near-duplicate generations of the same design
(an older `plover_engine_server` split and a newer consolidated
`plover_websocket_server`). The embedding below follows the consolidated
generation (`src/plover_websocket_server/server.py`, `views.py`,
`manager.py`) together with `src/plover_engine_server/config.py`,
which only exists in the older generation.

Modelling conventions:
- Python object mutation is modelled by explicit state passing: a method
  that may mutate `self` becomes a function `State -> State × ...`.
- A Python `raise` is modelled by an `Option PyErr` component of the
  result (`some e` = the call raised `e` and, since every `raise` in this
  code happens before any field assignment, the returned state equals the
  input state) or, for constructors, by `Except`.
- The asyncio event loop owned by the server thread is modelled as a FIFO
  queue of pending tasks stored in the application object
  (`App.pending`): `asyncio.run_coroutine_threadsafe(coro, loop)` appends
  a task to that queue and returns immediately, and the loop drains the
  queue in arrival order, running each task to completion.  This is the
  mailbox model of the spec (§4.2, §5, §9); asyncio itself is not part of
  the repository.
-/

/-- Message payload handed to the gateway. The code treats the data as an
opaque JSON-serializable dict; its internal structure is irrelevant to
every property proved here, so it is modelled as an opaque string. -/
abbrev Data := String

/-- Errors raised by the Python code in this repository.
`assertionError` carries the message string from the source;
`valueError` is what `list.remove` raises on an absent element;
`attributeError` is an attribute access on `None`;
`jsonDecodeError` is what `json.load` raises on malformed content. -/
inductive PyErr where
  | assertionError (msg : String)
  | valueError
  | attributeError
  | jsonDecodeError
deriving DecidableEq, Repr

/-- Source constant ERROR_SERVER_RUNNING in server.py. -/
def ERROR_SERVER_RUNNING : String := "A server is already running"

/-- Source constant ERROR_NO_SERVER in server.py. -/
def ERROR_NO_SERVER : String := "A server is not currently running"

/-- Source constant DEFAULT_HOST. -/
def DEFAULT_HOST : String := "localhost"

/-- Source constant DEFAULT_PORT. -/
def DEFAULT_PORT : Nat := 8086

/-- The aiohttp close code WSCloseCode.GOING_AWAY used by
_on_server_shutdown (RFC 6455 "going away"). -/
def WSCloseCode_GOING_AWAY : Nat := 1001

/-- ServerStatus enum from server.py. -/
inductive ServerStatus where
  | Stopped
  | Running
deriving DecidableEq, Repr

/-- One live WebSocket connection (a web.WebSocketResponse held in the
registry). `id` identifies the socket object; `sendOk` models whether
`socket.send_json` succeeds on it (the environment decides this, the
server only observes success or an exception). -/
structure Conn where
  id : Nat
  sendOk : Bool
deriving DecidableEq, Repr

/-- A task scheduled onto the server's event loop by
`asyncio.run_coroutine_threadsafe`: either a `_broadcast_message(data)`
coroutine or the `_stop()` coroutine. -/
inductive LoopTask where
  | broadcast (data : Data)
  | stop
deriving DecidableEq, Repr

/-- The aiohttp `web.Application` created by `_start`, holding the
connection registry `app['websockets']` and the event loop's FIFO of
scheduled-but-not-yet-run tasks. -/
structure App where
  websockets : List Conn
  pending : List LoopTask
deriving DecidableEq, Repr

/-- State of the consolidated WebSocketServer object: `_app` (None until
`_start` runs, None again after `_stop`), `_host`, `_port`, `status`. -/
structure WebSocketServer where
  app : Option App
  host : String
  port : Nat
  status : ServerStatus
deriving DecidableEq, Repr

/-- WebSocketServer.__init__: binds host and port, no application yet,
status Stopped. -/
def WebSocketServer.init (host : String) (port : Nat) : WebSocketServer :=
  { app := none, host := host, port := port, status := ServerStatus.Stopped }

/-- The setup portion of WebSocketServer._start, executed on the server's
dedicated thread up to the point where `web.run_app` begins serving: if
the status is already Running it raises AssertionError(ERROR_SERVER_RUNNING);
otherwise it creates a fresh event loop and application with an empty
connection registry and sets the status to Running. -/
def start_setup (s : WebSocketServer) : WebSocketServer × Option PyErr :=
  if s.status = ServerStatus.Running then
    (s, some (PyErr.assertionError ERROR_SERVER_RUNNING))
  else
    ({ s with app := some { websockets := [], pending := [] },
              status := ServerStatus.Running }, none)

/-- WebSocketServer.queue_message: called from a foreign thread; if `_app`
is not bound it returns immediately (no-op), otherwise it schedules the
`_broadcast_message(data)` coroutine onto the server's loop
(`asyncio.run_coroutine_threadsafe` appends to the loop's FIFO and
returns without waiting). It contains no raise. -/
def queue_message (s : WebSocketServer) (data : Data) :
    WebSocketServer × Option PyErr :=
  match s.app with
  | none => (s, none)
  | some a =>
      ({ s with app := some { a with pending := a.pending ++ [LoopTask.broadcast data] } },
       none)

/-- WebSocketServer.queue_stop: same gateway shape as queue_message, but
schedules the `_stop()` coroutine. -/
def queue_stop (s : WebSocketServer) : WebSocketServer × Option PyErr :=
  match s.app with
  | none => (s, none)
  | some a =>
      ({ s with app := some { a with pending := a.pending ++ [LoopTask.stop] } },
       none)

/-- One close performed by _on_server_shutdown:
`socket.close(code=WSCloseCode.GOING_AWAY, message='Server shutdown')`. -/
structure CloseEvent where
  connId : Nat
  code : Nat
  message : String
deriving DecidableEq, Repr

/-- WebSocketServer._on_server_shutdown: awaits a close with code
GOING_AWAY and message 'Server shutdown' for every socket currently in
`app['websockets']`, in registry order. -/
def on_server_shutdown (a : App) : List CloseEvent :=
  a.websockets.map fun c =>
    { connId := c.id, code := WSCloseCode_GOING_AWAY, message := "Server shutdown" }

/-- WebSocketServer._stop (the coroutine run inside the server's loop):
raises AssertionError(ERROR_NO_SERVER) unless the status is Running;
otherwise stops the loop, runs the on_shutdown hooks (which close every
registered connection), cleans up, unbinds `_app` and sets the status to
Stopped. The list component records the closes performed by the shutdown
hook. Accessing `self._app.loop` with `_app` unbound would raise
AttributeError. -/
def server_stop (s : WebSocketServer) :
    WebSocketServer × List CloseEvent × Option PyErr :=
  if s.status ≠ ServerStatus.Running then
    (s, [], some (PyErr.assertionError ERROR_NO_SERVER))
  else
    match s.app with
    | none => (s, [], some PyErr.attributeError)
    | some a =>
        ({ s with app := none, status := ServerStatus.Stopped },
         on_server_shutdown a, none)

/-- Outcome of one iteration of the `for socket in ...` loop of
_broadcast_message: either `send_json` delivered the data, or it raised
and the bare `except` caught it and logged 'Failed to update websocket'. -/
inductive SendResult where
  | sent (connId : Nat) (data : Data)
  | failed (connId : Nat)
deriving DecidableEq, Repr

/-- Connection id a send attempt was addressed to. -/
def SendResult.connId : SendResult → Nat
  | SendResult.sent i _ => i
  | SendResult.failed i => i

/-- Connection id of a successful delivery, none for a caught failure. -/
def SendResult.sentId : SendResult → Option Nat
  | SendResult.sent i _ => some i
  | SendResult.failed _ => none

/-- The `for socket in sockets: try: await socket.send_json(data)
except: print(...)` loop of _broadcast_message: attempts every socket in
order, a failure is caught and logged and the loop continues. -/
def broadcastLoop (sockets : List Conn) (data : Data) : List SendResult :=
  sockets.map fun c =>
    if c.sendOk then SendResult.sent c.id data else SendResult.failed c.id

/-- WebSocketServer._broadcast_message: iterates over
`self._app.get('websockets', [])` sending `data` to each socket with
per-socket failures caught; it assigns no field of self. With `_app`
unbound the attribute access on None raises AttributeError. -/
def broadcast_message (s : WebSocketServer) (data : Data) :
    WebSocketServer × List SendResult × Option PyErr :=
  match s.app with
  | none => (s, [], some PyErr.attributeError)
  | some a => (s, broadcastLoop a.websockets data, none)

/-- Python `list.remove(x)` as used on the registry by websocket_handler:
removes the first element equal to `x`, raises ValueError if no element
is equal to `x`. -/
def listRemove (l : List Conn) (c : Conn) : Except PyErr (List Conn) :=
  match l with
  | [] => Except.error PyErr.valueError
  | x :: rest =>
      if x = c then Except.ok rest
      else (listRemove rest c).map fun r => x :: r

/-- The event loop draining its FIFO: each scheduled task runs to
completion in arrival order (the cooperative scheduler model of spec §5
and §9; asyncio is not part of the repository). The accumulated list is
the sequence of send attempts performed by the broadcast tasks. -/
def runTasks (s : WebSocketServer) : List LoopTask → WebSocketServer × List SendResult
  | [] => (s, [])
  | t :: rest =>
      match t with
      | LoopTask.broadcast d =>
          let r := broadcast_message s d
          let r2 := runTasks r.1 rest
          (r2.1, r.2.1 ++ r2.2)
      | LoopTask.stop =>
          let r := server_stop s
          let r2 := runTasks r.1 rest
          (r2.1, r2.2)

/-- Drains the pending task queue of the server's loop: the tasks queued
in `App.pending` run in FIFO order against the current registry. -/
def run_pending (s : WebSocketServer) : WebSocketServer × List SendResult :=
  match s.app with
  | none => (s, [])
  | some a => runTasks { s with app := some { a with pending := [] } } a.pending

/-- The sequence of payloads delivered to connection `i`, in order, in a
send log. -/
def receivedBy (i : Nat) (log : List SendResult) : List Data :=
  log.filterMap fun r =>
    match r with
    | SendResult.sent j d => if j == i then some d else none
    | SendResult.failed _ => none

/-- State of WebSocketServerManager from manager.py: the optional live
server (`_server`). The Plover engine and its hooks are out-of-scope
collaborators (spec §1) and play no part in the claims proved here. -/
structure WebSocketServerManager where
  server : Option WebSocketServer
deriving DecidableEq, Repr

/-- WebSocketServerManager.get_server_status:
`self._server.status if self._server else ServerStatus.Stopped`. -/
def WebSocketServerManager.get_server_status
    (m : WebSocketServerManager) : ServerStatus :=
  match m.server with
  | none => ServerStatus.Stopped
  | some s => s.status

/-- WebSocketServerManager.start: raises
AssertionError(ERROR_SERVER_RUNNING) unless get_server_status() is
Stopped; otherwise constructs a fresh WebSocketServer and starts its
dedicated thread. The thread's body is `_start`; the sequential model
runs its setup portion to completion here (the point after which the
server is serving). -/
def WebSocketServerManager.start
    (m : WebSocketServerManager) : WebSocketServerManager × Option PyErr :=
  if m.get_server_status ≠ ServerStatus.Stopped then
    (m, some (PyErr.assertionError ERROR_SERVER_RUNNING))
  else
    let r := start_setup (WebSocketServer.init DEFAULT_HOST DEFAULT_PORT)
    ({ server := some r.1 }, r.2)

/-- WebSocketServerManager.stop: raises AssertionError(ERROR_NO_SERVER)
if there is no server or its status is not Running; otherwise queues the
stop (which the server's loop runs), joins the server thread, and nulls
out the server reference. The sequential model runs the queued `_stop`
to completion (that is what join waits for). -/
def WebSocketServerManager.stop
    (m : WebSocketServerManager) : WebSocketServerManager × Option PyErr :=
  match m.server with
  | none => (m, some (PyErr.assertionError ERROR_NO_SERVER))
  | some srv =>
      if srv.status ≠ ServerStatus.Running then
        (m, some (PyErr.assertionError ERROR_NO_SERVER))
      else
        let r := server_stop srv
        ({ server := none }, r.2.2)

/-- Loaded server configuration (class ServerConfig of
plover_engine_server/config.py): the host and port attributes set by
its __init__. -/
structure ServerConfig where
  host : String
  port : Nat
deriving DecidableEq, Repr

/-- What `open(file_path)` followed by `json.load` can encounter at the
configuration path: no file, a file with malformed content, or a JSON
object in which each recognized key is present or absent. -/
inductive ConfigFile where
  | absent
  | malformed
  | valid (host : Option String) (port : Option Nat)

/-- ServerConfig.__init__: `json.load` on the opened file, with only
FileNotFoundError caught (falling back to an empty dict); malformed
content raises out of the constructor. Then
`host = data.get('host', DEFAULT_HOST)` and
`port = data.get('port', DEFAULT_PORT)`. -/
def ServerConfig.load : ConfigFile → Except PyErr ServerConfig
  | ConfigFile.absent =>
      Except.ok { host := DEFAULT_HOST, port := DEFAULT_PORT }
  | ConfigFile.malformed => Except.error PyErr.jsonDecodeError
  | ConfigFile.valid h p =>
      Except.ok { host := h.getD DEFAULT_HOST, port := p.getD DEFAULT_PORT }

/-- Sample registry used by the closed witness statements: three live
sockets of which the second fails to send. -/
def sampleApp : App :=
  { websockets := [{ id := 1, sendOk := true }, { id := 2, sendOk := false },
                   { id := 3, sendOk := true }],
    pending := [] }

/-- Sample running server bound to the sample application. -/
def sampleRunning : WebSocketServer :=
  { app := some sampleApp, host := DEFAULT_HOST, port := DEFAULT_PORT,
    status := ServerStatus.Running }

/-- Sample freshly constructed (stopped) server. -/
def sampleStopped : WebSocketServer :=
  WebSocketServer.init DEFAULT_HOST DEFAULT_PORT

/-- C1: for every state of the server (never started, started, stopped,
or mid-initialization with no application bound), queue_message(data) for
any data and queue_stop() never raise: with no execution context (no
application bound) the call returns immediately leaving the server
unchanged, and otherwise it appends the broadcast (resp. stop) routine to
the server's own loop's FIFO without running it, i.e. without blocking
the caller. -/
theorem c1_gateway_never_raises (s0 s1 : WebSocketServer) (a : App) (d : Data)
    (h0 : s0.app = none) (h1 : s1.app = some a) :
    queue_message s0 d = (s0, none) ∧
    queue_stop s0 = (s0, none) ∧
    queue_message s1 d =
      ({ s1 with app := some { a with pending := a.pending ++ [LoopTask.broadcast d] } },
       none) ∧
    queue_stop s1 =
      ({ s1 with app := some { a with pending := a.pending ++ [LoopTask.stop] } },
       none) := by
  refine ⟨?_, ?_, ?_, ?_⟩ <;> simp [queue_message, queue_stop, h0, h1]

/-- Witness for c1_gateway_never_raises at a never-started server and a
running server with three registered sockets. -/
theorem c1_gateway_never_raises_witness :
    sampleStopped.app = none ∧ sampleRunning.app = some sampleApp ∧
    (queue_message sampleStopped "m" = (sampleStopped, none) ∧
     queue_stop sampleStopped = (sampleStopped, none) ∧
     queue_message sampleRunning "m" =
       ({ sampleRunning with
            app := some { sampleApp with
              pending := sampleApp.pending ++ [LoopTask.broadcast "m"] } }, none) ∧
     queue_stop sampleRunning =
       ({ sampleRunning with
            app := some { sampleApp with
              pending := sampleApp.pending ++ [LoopTask.stop] } }, none)) :=
  ⟨rfl, rfl, c1_gateway_never_raises sampleStopped sampleRunning sampleApp "m" rfl rfl⟩

/-- C3: lifecycle preconditions fail loudly and leave the state
unchanged: _start with status not Stopped raises
AssertionError(ERROR_SERVER_RUNNING); _stop with status not Running
raises AssertionError(ERROR_NO_SERVER) and performs no closes; the
manager's start with observed status not Stopped raises AlreadyRunning;
the manager's stop with observed status not Running raises NotRunning.
In each case the returned state equals the input state. -/
theorem c3_lifecycle_guards (s t : WebSocketServer)
    (m n : WebSocketServerManager)
    (hs : s.status ≠ ServerStatus.Stopped)
    (ht : t.status ≠ ServerStatus.Running)
    (hm : m.get_server_status ≠ ServerStatus.Stopped)
    (hn : n.get_server_status ≠ ServerStatus.Running) :
    start_setup s = (s, some (PyErr.assertionError ERROR_SERVER_RUNNING)) ∧
    server_stop t = (t, [], some (PyErr.assertionError ERROR_NO_SERVER)) ∧
    m.start = (m, some (PyErr.assertionError ERROR_SERVER_RUNNING)) ∧
    n.stop = (n, some (PyErr.assertionError ERROR_NO_SERVER)) := by
  have hs' : s.status = ServerStatus.Running := by
    cases h : s.status
    · exact absurd h hs
    · rfl
  refine ⟨?_, ?_, ?_, ?_⟩
  · simp [start_setup, hs']
  · simp [server_stop, ht]
  · simp [WebSocketServerManager.start, hm]
  · match hsrv : n.server with
    | none => simp [WebSocketServerManager.stop, hsrv]
    | some srv =>
        have : srv.status ≠ ServerStatus.Running := by
          intro hr
          exact hn (by simp [WebSocketServerManager.get_server_status, hsrv, hr])
        simp [WebSocketServerManager.stop, hsrv, this]

/-- Witness for c3_lifecycle_guards: a running server rejects Start, a
stopped server rejects the internal stop, a manager holding a running
server rejects start, a manager with no server rejects stop. -/
theorem c3_lifecycle_guards_witness :
    sampleRunning.status ≠ ServerStatus.Stopped ∧
    sampleStopped.status ≠ ServerStatus.Running ∧
    WebSocketServerManager.get_server_status { server := some sampleRunning } ≠
      ServerStatus.Stopped ∧
    WebSocketServerManager.get_server_status { server := none } ≠
      ServerStatus.Running ∧
    (start_setup sampleRunning =
       (sampleRunning, some (PyErr.assertionError ERROR_SERVER_RUNNING)) ∧
     server_stop sampleStopped =
       (sampleStopped, [], some (PyErr.assertionError ERROR_NO_SERVER)) ∧
     WebSocketServerManager.start { server := some sampleRunning } =
       ({ server := some sampleRunning },
        some (PyErr.assertionError ERROR_SERVER_RUNNING)) ∧
     WebSocketServerManager.stop { server := none } =
       ({ server := none }, some (PyErr.assertionError ERROR_NO_SERVER))) :=
  ⟨by decide, by decide, by decide, by decide,
   c3_lifecycle_guards sampleRunning sampleStopped
     { server := some sampleRunning } { server := none }
     (by decide) (by decide) (by decide) (by decide)⟩

/-- C5: get_server_status reflects the lifecycle: a start from observed
status Stopped succeeds (no raise) and leaves the manager reporting
Running; a stop from observed status Running nulls out the manager's
server reference, so the manager reports Stopped. -/
theorem c5_manager_status (m1 m2 : WebSocketServerManager)
    (h1 : m1.get_server_status = ServerStatus.Stopped)
    (h2 : m2.get_server_status = ServerStatus.Running) :
    (m1.start.1.get_server_status = ServerStatus.Running ∧ m1.start.2 = none) ∧
    (m2.stop.1.server = none ∧
     m2.stop.1.get_server_status = ServerStatus.Stopped) := by
  constructor
  · unfold WebSocketServerManager.start
    rw [if_neg (by simp [h1])]
    simp [start_setup, WebSocketServer.init, WebSocketServerManager.get_server_status]
  · match hsrv : m2.server with
    | none =>
        have : m2.get_server_status = ServerStatus.Stopped := by
          simp [WebSocketServerManager.get_server_status, hsrv]
        rw [this] at h2
        exact absurd h2 (by decide)
    | some srv =>
        have h2' : srv.status = ServerStatus.Running := by
          simpa [WebSocketServerManager.get_server_status, hsrv] using h2
        simp [WebSocketServerManager.stop, hsrv, h2',
              WebSocketServerManager.get_server_status]

/-- Witness for c5_manager_status at an empty manager and a manager
holding the sample running server. -/
theorem c5_manager_status_witness :
    WebSocketServerManager.get_server_status { server := none } =
      ServerStatus.Stopped ∧
    WebSocketServerManager.get_server_status { server := some sampleRunning } =
      ServerStatus.Running ∧
    (((WebSocketServerManager.start { server := none }).1.get_server_status =
        ServerStatus.Running ∧
      (WebSocketServerManager.start { server := none }).2 = none) ∧
     ((WebSocketServerManager.stop { server := some sampleRunning }).1.server = none ∧
      (WebSocketServerManager.stop { server := some sampleRunning }).1.get_server_status =
        ServerStatus.Stopped)) :=
  ⟨rfl, rfl,
   c5_manager_status { server := none } { server := some sampleRunning } rfl rfl⟩

/-- C6: configuration loading — an absent file yields the defaults
(host 'localhost', port 8086); a present well-formed file takes the
file's value for each present key and the default for each absent key;
malformed content raises out of the constructor (fatal to startup). -/
theorem c6_config_load :
    ServerConfig.load ConfigFile.absent =
      Except.ok { host := DEFAULT_HOST, port := DEFAULT_PORT } ∧
    ServerConfig.load ConfigFile.malformed = Except.error PyErr.jsonDecodeError ∧
    ∀ (h : Option String) (p : Option Nat),
      ServerConfig.load (ConfigFile.valid h p) =
        Except.ok { host := h.getD DEFAULT_HOST, port := p.getD DEFAULT_PORT } := by
  refine ⟨rfl, rfl, fun h p => rfl⟩

/-- C7: graceful shutdown closes every connection currently in the
registry, in registry order with none skipped, each with the GOING_AWAY
close code and the 'Server shutdown' reason. -/
theorem c7_graceful_shutdown (a : App) :
    (on_server_shutdown a).map CloseEvent.connId = a.websockets.map Conn.id ∧
    ((on_server_shutdown a).all fun e =>
        e.code == WSCloseCode_GOING_AWAY && e.message == "Server shutdown") = true := by
  constructor
  · simp [on_server_shutdown, List.map_map]
  · simp [on_server_shutdown, List.all_map]

/-- C9: the status-iff-application invariant of the consolidated server:
construction yields Stopped with no application; the setup portion of
_start, run from a Stopped state, succeeds and yields Running with an
application bound; _stop, run from a Running state with an application
bound, succeeds and yields Stopped with no application. At each of the
three points, status = Running holds exactly when an application is
bound. -/
theorem c9_status_app_invariant (host : String) (port : Nat)
    (s t : WebSocketServer) (a : App)
    (hs : s.status = ServerStatus.Stopped)
    (ht : t.status = ServerStatus.Running)
    (ha : t.app = some a) :
    ((WebSocketServer.init host port).status = ServerStatus.Stopped ∧
     (WebSocketServer.init host port).app = none ∧
     ((WebSocketServer.init host port).status = ServerStatus.Running ↔
        (WebSocketServer.init host port).app.isSome = true)) ∧
    ((start_setup s).1.status = ServerStatus.Running ∧
     (start_setup s).1.app.isSome = true ∧
     (start_setup s).2 = none ∧
     ((start_setup s).1.status = ServerStatus.Running ↔
        (start_setup s).1.app.isSome = true)) ∧
    ((server_stop t).1.status = ServerStatus.Stopped ∧
     (server_stop t).1.app = none ∧
     (server_stop t).2.2 = none ∧
     ((server_stop t).1.status = ServerStatus.Running ↔
        (server_stop t).1.app.isSome = true)) := by
  refine ⟨⟨rfl, rfl, by simp [WebSocketServer.init]⟩, ?_, ?_⟩
  · simp [start_setup, hs]
  · simp [server_stop, ht, ha]

/-- Witness for c9_status_app_invariant at the default host and port, a
freshly constructed server and the sample running server. -/
theorem c9_status_app_invariant_witness :
    sampleStopped.status = ServerStatus.Stopped ∧
    sampleRunning.status = ServerStatus.Running ∧
    sampleRunning.app = some sampleApp ∧
    (((WebSocketServer.init DEFAULT_HOST DEFAULT_PORT).status = ServerStatus.Stopped ∧
      (WebSocketServer.init DEFAULT_HOST DEFAULT_PORT).app = none ∧
      ((WebSocketServer.init DEFAULT_HOST DEFAULT_PORT).status = ServerStatus.Running ↔
         (WebSocketServer.init DEFAULT_HOST DEFAULT_PORT).app.isSome = true)) ∧
     ((start_setup sampleStopped).1.status = ServerStatus.Running ∧
      (start_setup sampleStopped).1.app.isSome = true ∧
      (start_setup sampleStopped).2 = none ∧
      ((start_setup sampleStopped).1.status = ServerStatus.Running ↔
         (start_setup sampleStopped).1.app.isSome = true)) ∧
     ((server_stop sampleRunning).1.status = ServerStatus.Stopped ∧
      (server_stop sampleRunning).1.app = none ∧
      (server_stop sampleRunning).2.2 = none ∧
      ((server_stop sampleRunning).1.status = ServerStatus.Running ↔
         (server_stop sampleRunning).1.app.isSome = true))) :=
  ⟨rfl, rfl, rfl,
   c9_status_app_invariant DEFAULT_HOST DEFAULT_PORT sampleStopped sampleRunning
     sampleApp rfl rfl rfl⟩

/-- Every iteration of the broadcast loop addresses the corresponding
registry entry: the attempted connection ids are the registry ids in
order. -/
theorem broadcastLoop_map_connId (reg : List Conn) (d : Data) :
    (broadcastLoop reg d).map SendResult.connId = reg.map Conn.id := by
  induction reg with
  | nil => rfl
  | cons c rest ih =>
      simp only [broadcastLoop, List.map_cons] at ih ⊢
      by_cases h : c.sendOk <;> simp [h, SendResult.connId, ih]

/-- The successful deliveries of the broadcast loop are exactly the
registry entries whose send succeeds, in order. -/
theorem broadcastLoop_sentIds (reg : List Conn) (d : Data) :
    (broadcastLoop reg d).filterMap SendResult.sentId =
      (reg.filter fun c => c.sendOk).map Conn.id := by
  induction reg with
  | nil => rfl
  | cons c rest ih =>
      simp only [broadcastLoop, List.map_cons, List.filterMap_cons,
                 List.filter_cons] at ih ⊢
      by_cases h : c.sendOk <;> simp [h, SendResult.sentId, ih]

/-- C4: broadcast isolates per-connection failures: for every registry
and message, _broadcast_message raises nothing, attempts delivery to
every registered connection in registry order whatever the per-connection
outcomes, delivers to exactly the connections whose sends succeed, and
leaves the server state (hence the registry) untouched. -/
theorem c4_broadcast_isolation (s : WebSocketServer) (a : App) (d : Data)
    (h : s.app = some a) :
    (broadcast_message s d).1 = s ∧
    (broadcast_message s d).2.2 = none ∧
    (broadcast_message s d).2.1.map SendResult.connId = a.websockets.map Conn.id ∧
    (broadcast_message s d).2.1.filterMap SendResult.sentId =
      (a.websockets.filter fun c => c.sendOk).map Conn.id := by
  refine ⟨?_, ?_, ?_, ?_⟩ <;>
    simp [broadcast_message, h, broadcastLoop_map_connId, broadcastLoop_sentIds]

/-- Witness for c4_broadcast_isolation on the sample registry of three
sockets whose second fails to send: all three are attempted, the first
and third receive the message. -/
theorem c4_broadcast_isolation_witness :
    sampleRunning.app = some sampleApp ∧
    ((broadcast_message sampleRunning "m").1 = sampleRunning ∧
     (broadcast_message sampleRunning "m").2.2 = none ∧
     (broadcast_message sampleRunning "m").2.1.map SendResult.connId =
       sampleApp.websockets.map Conn.id ∧
     (broadcast_message sampleRunning "m").2.1.filterMap SendResult.sentId =
       (sampleApp.websockets.filter fun c => c.sendOk).map Conn.id) :=
  ⟨rfl, c4_broadcast_isolation sampleRunning sampleApp "m" rfl⟩

/-- C10: broadcast is effect-free on server state: whatever the outcome
of the per-connection sends, _broadcast_message leaves the application
binding, status, host, port and the registry contents unchanged. -/
theorem c10_broadcast_frame (s : WebSocketServer) (a : App) (d : Data)
    (h : s.app = some a) :
    (broadcast_message s d).1.app = s.app ∧
    (broadcast_message s d).1.status = s.status ∧
    (broadcast_message s d).1.host = s.host ∧
    (broadcast_message s d).1.port = s.port ∧
    (broadcast_message s d).1.app.map App.websockets = some a.websockets := by
  refine ⟨?_, ?_, ?_, ?_, ?_⟩ <;> simp [broadcast_message, h]

/-- Witness for c10_broadcast_frame on the sample registry containing
both succeeding and failing sockets. -/
theorem c10_broadcast_frame_witness :
    sampleRunning.app = some sampleApp ∧
    ((broadcast_message sampleRunning "n").1.app = sampleRunning.app ∧
     (broadcast_message sampleRunning "n").1.status = sampleRunning.status ∧
     (broadcast_message sampleRunning "n").1.host = sampleRunning.host ∧
     (broadcast_message sampleRunning "n").1.port = sampleRunning.port ∧
     (broadcast_message sampleRunning "n").1.app.map App.websockets =
       some sampleApp.websockets) :=
  ⟨rfl, c10_broadcast_frame sampleRunning sampleApp "n" rfl⟩

/-- Removing an element that is not in the list raises ValueError, as
Python list.remove does. -/
theorem listRemove_of_not_mem (l : List Conn) (c : Conn) (h : c ∉ l) :
    listRemove l c = Except.error PyErr.valueError := by
  induction l with
  | nil => rfl
  | cons x rest ih =>
      simp only [List.mem_cons, not_or] at h
      have hx : ¬x = c := fun hh => h.1 hh.symm
      simp only [listRemove, if_neg hx, ih h.2]
      rfl

/-- Removing a present element removes its first occurrence, exactly
List.erase. -/
theorem listRemove_of_mem (l : List Conn) (c : Conn) (h : c ∈ l) :
    listRemove l c = Except.ok (l.erase c) := by
  induction l with
  | nil => cases h
  | cons x rest ih =>
      by_cases hx : x = c
      · subst hx
        simp [listRemove, List.erase_cons_head]
      · have hc : c ∈ rest := by
          cases h with
          | head => exact absurd rfl hx
          | tail _ hm => exact hm
        simp [listRemove, hx, ih hc, List.erase_cons_tail, Except.map]

/-- C2 counterexample: the close-time removal is Python list.remove. On
the one-element registry holding the connection, one removal yields the
empty registry, and repeating the removal there — equivalently, removing
a connection that is not in the registry — raises ValueError instead of
being a no-op. -/
theorem c2_remove_absent_raises :
    listRemove [{ id := 0, sendOk := true }] { id := 0, sendOk := true } =
      Except.ok [] ∧
    listRemove ([] : List Conn) { id := 0, sendOk := true } =
      Except.error PyErr.valueError :=
  ⟨rfl, rfl⟩

/-- C2 (amended): the close-time removal deletes the first occurrence of
the connection, but it is not idempotent: for a registry containing the
connection exactly once, the first removal succeeds and yields the
registry with that occurrence erased, and performing the removal again
raises ValueError — removing an absent connection is an error, not a
no-op. -/
theorem c2_remove_not_idempotent (reg : List Conn) (c : Conn)
    (h : reg.count c = 1) :
    listRemove reg c = Except.ok (reg.erase c) ∧
    listRemove (reg.erase c) c = Except.error PyErr.valueError := by
  have hmem : c ∈ reg := by
    rw [← List.count_pos_iff, h]
    exact Nat.zero_lt_one
  refine ⟨listRemove_of_mem reg c hmem, listRemove_of_not_mem _ _ ?_⟩
  rw [← List.count_eq_zero, List.count_erase_self, h]

/-- Witness for c2_remove_not_idempotent on a one-element registry. -/
theorem c2_remove_not_idempotent_witness :
    ([{ id := 5, sendOk := true }] : List Conn).count { id := 5, sendOk := true } = 1 ∧
    (listRemove [{ id := 5, sendOk := true }] { id := 5, sendOk := true } =
       Except.ok (([{ id := 5, sendOk := true }] : List Conn).erase
         { id := 5, sendOk := true }) ∧
     listRemove (([{ id := 5, sendOk := true }] : List Conn).erase
         { id := 5, sendOk := true }) { id := 5, sendOk := true } =
       Except.error PyErr.valueError) :=
  ⟨by decide,
   c2_remove_not_idempotent [{ id := 5, sendOk := true }] { id := 5, sendOk := true }
     (by decide)⟩

/-- Deliveries to one connection across a concatenated send log. -/
theorem receivedBy_append (i : Nat) (l1 l2 : List SendResult) :
    receivedBy i (l1 ++ l2) = receivedBy i l1 ++ receivedBy i l2 := by
  simp [receivedBy, List.filterMap_append]

/-- One step of the broadcast loop as seen by connection id `i`: the
head registry entry contributes the payload exactly when it carries id
`i` and its send succeeds. -/
theorem receivedBy_broadcastLoop_cons (i : Nat) (x : Conn) (rest : List Conn)
    (d : Data) :
    receivedBy i (broadcastLoop (x :: rest) d) =
      if x.sendOk && x.id == i then d :: receivedBy i (broadcastLoop rest d)
      else receivedBy i (broadcastLoop rest d) := by
  by_cases hok : x.sendOk <;> by_cases hid : x.id = i <;>
    simp [broadcastLoop, receivedBy, hok, hid, List.filterMap_cons]

/-- A broadcast pass delivers nothing to an id absent from the
registry. -/
theorem receivedBy_broadcastLoop_nil_of_filter (i : Nat) (d : Data)
    (reg : List Conn) (hc : (reg.filter fun x => x.id == i) = []) :
    receivedBy i (broadcastLoop reg d) = [] := by
  induction reg with
  | nil => rfl
  | cons x rest ih =>
      rw [List.filter_cons] at hc
      by_cases hid : (x.id == i) = true
      · rw [if_pos hid] at hc
        exact absurd hc (by simp)
      · rw [if_neg hid] at hc
        rw [receivedBy_broadcastLoop_cons]
        simp only [hid, Bool.and_false, if_false]
        exact ih hc

/-- A broadcast pass delivers exactly one copy of the payload to a
connection that is the registry's only carrier of its id and whose send
succeeds. -/
theorem receivedBy_broadcastLoop_single (reg : List Conn) (c : Conn) (d : Data)
    (hc : (reg.filter fun x => x.id == c.id) = [c]) (hok : c.sendOk = true) :
    receivedBy c.id (broadcastLoop reg d) = [d] := by
  induction reg with
  | nil => exact absurd hc (by simp)
  | cons x rest ih =>
      rw [List.filter_cons] at hc
      by_cases hid : (x.id == c.id) = true
      · rw [if_pos hid] at hc
        injection hc with hx hrest
        subst hx
        rw [receivedBy_broadcastLoop_cons]
        simp only [hok, hid, Bool.and_self, if_true, Bool.true_and]
        simp only [List.cons.injEq, true_and]
        exact receivedBy_broadcastLoop_nil_of_filter _ d _ hrest
      · rw [if_neg hid] at hc
        rw [receivedBy_broadcastLoop_cons]
        simp only [hid, Bool.and_false, if_false]
        exact ih hc

/-- C8: messages submitted in order A then B from the event-source
thread are observed in that order: with an idle loop, the two
submissions enqueue their broadcast routines onto the same FIFO, and
draining it delivers A then B to every connected client whose sends
succeed (`hc` states that `c` is the registry's only connection with its
id). The loop model runs each scheduled task to completion in arrival
order, which is the single-threaded cooperative scheduler the spec
describes. -/
theorem c8_submission_order (s : WebSocketServer) (a : App) (c : Conn)
    (A B : Data)
    (h : s.app = some a) (hp : a.pending = [])
    (hc : (a.websockets.filter fun x => x.id == c.id) = [c])
    (hok : c.sendOk = true) :
    receivedBy c.id
      (run_pending (queue_message (queue_message s A).1 B).1).2 = [A, B] := by
  have h1 : (queue_message s A).1 =
      { s with app := some ({ a with pending := [LoopTask.broadcast A] }) } := by
    simp [queue_message, h, hp]
  have h2 : (queue_message (queue_message s A).1 B).1 =
      { s with app := some ({ a with
          pending := [LoopTask.broadcast A, LoopTask.broadcast B] }) } := by
    rw [h1]
    simp [queue_message]
  rw [h2]
  simp only [run_pending, runTasks, broadcast_message]
  rw [List.append_nil, receivedBy_append,
      receivedBy_broadcastLoop_single a.websockets c A hc hok,
      receivedBy_broadcastLoop_single a.websockets c B hc hok]
  rfl

/-- Witness for c8_submission_order: on the sample running server,
socket 1 observes A then B. -/
theorem c8_submission_order_witness :
    sampleRunning.app = some sampleApp ∧
    sampleApp.pending = [] ∧
    (sampleApp.websockets.filter fun x => x.id == 1) =
      [({ id := 1, sendOk := true } : Conn)] ∧
    receivedBy 1
      (run_pending (queue_message (queue_message sampleRunning "A").1 "B").1).2 =
      ["A", "B"] :=
  ⟨rfl, rfl, by decide,
   c8_submission_order sampleRunning sampleApp { id := 1, sendOk := true } "A" "B"
     rfl rfl (by decide) rfl⟩
